import Mathlib

/-!
Shallow embedding of `src/genomic_annotator/annotator.py` (genomic-annotator).

JSON-decoded Python values are modelled by `Json`; numbers are modelled by
exact rationals (the scoring constants 0.4, 0.2, 0.15, 0.1, 0.001, 0.01, 1.0
are all exactly representable, and every comparison the code performs on them
is decided identically over the rationals).  Fallible Python expressions
(subscripts, attribute access, comparisons with None) are modelled with
`Except String`; a `.error` value models an uncaught Python exception.
Network input is modelled by passing each adapter the outcome of its HTTP
request(s) as an explicit argument.
-/

/-- A JSON-decoded Python value: `None`, `bool`, number, `str`, `list`, `dict`.
Decoded JSON object keys are strings; insertion order is kept. -/
inductive Json where
  | null : Json
  | bool (b : Bool) : Json
  | num (q : ℚ) : Json
  | str (s : String) : Json
  | arr (xs : List Json) : Json
  | obj (kvs : List (String × Json)) : Json
deriving Repr

/-- Python truthiness of a JSON-decoded value (`bool(v)`). -/
def Json.truthy : Json → Bool
  | .null => false
  | .bool b => b
  | .num q => q ≠ 0
  | .str s => s ≠ ""
  | .arr xs => !xs.isEmpty
  | .obj kvs => !kvs.isEmpty

/-- First value bound to `key` in an association list (Python dicts in this
development have unique keys, so first = only). -/
def objGet (kvs : List (String × Json)) (key : String) : Option Json :=
  match kvs with
  | [] => none
  | (k, v) :: rest => if k = key then some v else objGet rest key

example : (Json.obj [("a", .num 1)]).truthy = true := by decide
example : objGet [("a", Json.num 1), ("b", .null)] "b" = some .null := rfl

/-- Python `repr` of a string, as used inside container reprs.  Simplified to
always use single quotes and no escaping; this cannot affect any alphabetic
substring probe performed by the code. -/
def strQuoted (s : String) : String := "\x27" ++ s ++ "\x27"

/-- Rendering of a number, abstracting Python float/int formatting as the
exact rational rendering.  No numeral rendering can contain the alphabetic
substring probed by the scorer. -/
def numRepr (q : ℚ) : String := toString q

mutual

/-- Python `repr` of a JSON-decoded value. -/
def pyRepr : Json → String
  | .null => "None"
  | .bool true => "True"
  | .bool false => "False"
  | .num q => numRepr q
  | .str s => strQuoted s
  | .arr xs => "[" ++ String.intercalate ", " (pyReprList xs) ++ "]"
  | .obj kvs => "\x7b" ++ String.intercalate ", " (pyReprPairs kvs) ++ "\x7d"

/-- Python `repr` of each element of a list. -/
def pyReprList : List Json → List String
  | [] => []
  | x :: xs => pyRepr x :: pyReprList xs

/-- Python `repr` of each `key: value` entry of a dict. -/
def pyReprPairs : List (String × Json) → List String
  | [] => []
  | (k, v) :: xs => (strQuoted k ++ ": " ++ pyRepr v) :: pyReprPairs xs

end

/-- Python `str` of a JSON-decoded value (`str` of a string is itself). -/
def pyStr : Json → String
  | .str s => s
  | v => pyRepr v

/-- Does the character list start with the given pattern? -/
def startsWithChars : List Char → List Char → Bool
  | _, [] => true
  | [], _ :: _ => false
  | c :: cs, p :: ps => c == p && startsWithChars cs ps

/-- Does the character list contain the pattern as a contiguous sublist? -/
def containsChars (pat : List Char) : List Char → Bool
  | [] => startsWithChars [] pat
  | c :: cs => startsWithChars (c :: cs) pat || containsChars pat cs

/-- Python substring containment `pat in s`. -/
def strContains (s pat : String) : Bool := containsChars pat.data s.data

/-- ASCII lowercasing of one character; Python `str.lower` restricted to
ASCII, which is all the code's probed substring can be affected by. -/
def asciiLowerChar (c : Char) : Char :=
  if 65 ≤ c.toNat ∧ c.toNat ≤ 90 then Char.ofNat (c.toNat + 32) else c

/-- Python `s.lower()` (ASCII fragment). -/
def strLower (s : String) : String := ⟨s.data.map asciiLowerChar⟩

example : strContains (strLower "Likely Pathogenic") "pathogenic" = true := rfl
example : strContains "benign" "pathogenic" = false := rfl

/-- Exponent suffix of a Python float literal, after the `e`/`E`. -/
def expPart (base : ℚ) (cs : List Char) : Option ℚ :=
  let esign : Bool := match cs with
    | '-' :: _ => true
    | _ => false
  let cs1 : List Char := match cs with
    | '-' :: t => t
    | '+' :: t => t
    | _ => cs
  let ds := cs1.takeWhile Char.isDigit
  if ds.isEmpty ∨ !(cs1.dropWhile Char.isDigit).isEmpty then none
  else
    let e := ds.foldl (fun a c => a * 10 + (c.toNat - 48)) 0
    some (if esign then base / 10 ^ e else base * 10 ^ e)

/-- Value of a list of decimal digits. -/
def digitsVal (cs : List Char) : ℚ :=
  ((cs.foldl (fun a c => a * 10 + (c.toNat - 48)) 0 : Nat) : ℚ)

/-- Python `float(s)` on a string: sign, digits, optional fraction, optional
exponent (special spellings such as `inf`/`nan`/whitespace padding are not
modelled; the code never relies on them). `none` models `ValueError`. -/
def pyFloatOfString (s : String) : Option ℚ :=
  let cs := s.data
  let sign : ℚ := match cs with
    | '-' :: _ => -1
    | _ => 1
  let cs1 : List Char := match cs with
    | '-' :: t => t
    | '+' :: t => t
    | _ => cs
  let ip := cs1.takeWhile Char.isDigit
  match cs1.dropWhile Char.isDigit with
  | [] => if ip.isEmpty then none else some (sign * digitsVal ip)
  | '.' :: t =>
    let fp := t.takeWhile Char.isDigit
    if ip.isEmpty ∧ fp.isEmpty then none
    else
      let base : ℚ := sign * (digitsVal ip + digitsVal fp / 10 ^ fp.length)
      match t.dropWhile Char.isDigit with
      | [] => some base
      | 'e' :: t2 => expPart base t2
      | 'E' :: t2 => expPart base t2
      | _ => none
  | 'e' :: t2 => if ip.isEmpty then none else expPart (sign * digitsVal ip) t2
  | 'E' :: t2 => if ip.isEmpty then none else expPart (sign * digitsVal ip) t2
  | _ => none

example : pyFloatOfString "abc" = none := rfl

/-- Python `float(v)` on a JSON-decoded value; `none` models
`ValueError`/`TypeError`. -/
def pyFloat : Json → Option ℚ
  | .num q => some q
  | .bool b => some (if b then 1 else 0)
  | .str s => pyFloatOfString s
  | _ => none

/-- Embedding of `VariantScorer._safe_float` (annotator.py lines 245-253), always invoked
with the default `default=None`: `None` stays `None`, a non-empty list is
unwrapped to its first element, anything else goes through `float`, and any
conversion failure yields the default `None`. -/
def safeFloat : Json → Option ℚ
  | .null => none
  | .arr (x :: _) => pyFloat x
  | v => pyFloat v

/-- Python membership test `key in v`.  For a dict it tests the keys, for a
list it compares elements with `==` (a string equals only an equal string),
for a string it is substring containment; for other values it raises
`TypeError` (modelled by `.error`). -/
def pyIn (key : String) : Json → Except String Bool
  | .obj kvs => .ok (kvs.any (fun kv => kv.1 == key))
  | .arr xs => .ok (xs.any (fun x => match x with
      | .str s => s == key
      | _ => false))
  | .str s => .ok (strContains s key)
  | _ => .error "TypeError: argument is not iterable"

/-- Python subscript `v[key]` with a string key: dict lookup (`KeyError` when
absent), `TypeError` on any other receiver. -/
def pySub (v : Json) (key : String) : Except String Json :=
  match v with
  | .obj kvs =>
    match objGet kvs key with
    | some x => .ok x
    | none => .error "KeyError"
  | _ => .error "TypeError: subscript with string key"

/-- Python `v.get(key, dflt)`: only dicts have `.get`; any other receiver
raises `AttributeError`. -/
def pyGetD (v : Json) (key : String) (dflt : Json) : Except String Json :=
  match v with
  | .obj kvs => .ok ((objGet kvs key).getD dflt)
  | _ => .error "AttributeError: no attribute get"

/-- Python `v.get(key, dflt)` with an arbitrary JSON-decoded key: decoded
dict keys are strings, so a non-string hashable key finds nothing and an
unhashable key (list/dict) raises `TypeError`. -/
def pyGetKeyD (v : Json) (key : Json) (dflt : Json) : Except String Json :=
  match v with
  | .obj kvs =>
    match key with
    | .str s => .ok ((objGet kvs s).getD dflt)
    | .arr _ => .error "TypeError: unhashable type"
    | .obj _ => .error "TypeError: unhashable type"
    | _ => .ok dflt
  | _ => .error "AttributeError: no attribute get"

/-- Python `v[0]`: first element of a list (`IndexError` when empty), first
character of a string, `TypeError` otherwise. -/
def pyIndex0 : Json → Except String Json
  | .arr (x :: _) => .ok x
  | .arr [] => .error "IndexError"
  | .str s =>
    match s.data with
    | c :: _ => .ok (.str ⟨[c]⟩)
    | [] => .error "IndexError"
  | _ => .error "TypeError: not subscriptable"

/-! ## The request primitive -/

/-- Outcome of one `SESSION.get` call: either the transport layer raised
(timeout, connection failure), or an HTTP response arrived with a status and
a body (`none` body = the body does not parse as JSON, so `resp.json()`
raises).  The session follows `Location`-bearing redirects, but a response
it delivers can still carry any status: e.g. an HTTP 300, a `Location`-less
3xx, or a status ≥ 600 arrives here as-is, body included. -/
inductive HttpOutcome where
  | transportError (msg : String) : HttpOutcome
  | response (status : Nat) (body : Option Json) : HttpOutcome

/-- Embedding of `BaseAnnotator._request` (annotator.py lines 74-84): 404 returns `None`;
`raise_for_status` raises on any 4xx/5xx status, and that exception — like a
transport failure or a JSON-decoding failure — is caught by the blanket
`except`, which logs and returns `None`.  So the caller sees either a parsed
payload or `None`, never an exception. -/
def BaseAnnotator.request : HttpOutcome → Option Json
  | .transportError _ => none
  | .response status body =>
    if status = 404 then none
    else if 400 ≤ status ∧ status < 600 then none
    else body

/-- Python `data or {}`: a falsy value (including `None`) is replaced by the
empty dict. -/
def orEmpty : Option Json → Json
  | none => .obj []
  | some v => if v.truthy then v else .obj []

/-! ## The envelope and the single-call adapters -/

/-- The `AnnotationResult` dataclass (annotator.py lines 52-57). -/
structure AnnotationResult where
  source : String
  data : Json
  success : Bool
  error : Option String
deriving Repr

/-- Python `k.startswith("_")`. -/
def underscoreKey (k : String) : Bool := startsWithChars k.data ['_']

/-- Is the payload a dict all of whose keys start with `_`?  (The
metadata-only test of `MyVariantAnnotator.annotate`; vacuously true for an
empty dict.) -/
def isMetadataOnly : Json → Bool
  | .obj kvs => kvs.all (fun kv => underscoreKey kv.1)
  | _ => false

/-- Embedding of `MyVariantAnnotator.annotate` (annotator.py lines 95-108), as a function
of the outcome of its one HTTP request: `success` iff a payload came back
and it is not a metadata-only dict; `data` is the payload with falsy
payloads replaced by `\x7b\x7d`. -/
def MyVariantAnnotator.annotate (o : HttpOutcome) : AnnotationResult :=
  let data := BaseAnnotator.request o
  let success : Bool :=
    match data with
    | none => false
    | some v => !(isMetadataOnly v)
  { source := "myvariant"
    data := orEmpty data
    success := success
    error := if success then none else some "No data found" }

/-- Embedding of `EnsemblVEPAnnotator.annotate` (annotator.py lines 118-132): `success`
is `len(data) > 0` for a list payload and mere presence otherwise; a
successful list payload is replaced by its first element before the
`data or \x7b\x7d` step. -/
def EnsemblVEPAnnotator.annotate (o : HttpOutcome) : AnnotationResult :=
  let data := BaseAnnotator.request o
  let success : Bool :=
    match data with
    | some (.arr xs) => !xs.isEmpty
    | some _ => true
    | none => false
  let data2 : Option Json :=
    match data with
    | some (.arr (x :: _)) => some x
    | d => d
  { source := "ensembl_vep"
    data := orEmpty data2
    success := success
    error := if success then none else some "No data found" }

/-- Embedding of `ConservationAnnotator.annotate` (annotator.py lines 177-192) for a given
track name, as a function of the outcome of its one HTTP request: `success`
is `bool(data)`. -/
def ConservationAnnotator.annotate (track : String) (o : HttpOutcome) :
    AnnotationResult :=
  let data := BaseAnnotator.request o
  let success : Bool :=
    match data with
    | some v => v.truthy
    | none => false
  { source := "ucsc_" ++ track
    data := orEmpty data
    success := success
    error := if success then none else some ("No " ++ track ++ " data found") }

/-! ## The two-phase ClinVar adapter -/

/-- One outbound request of `ClinVarAnnotator.annotate`: the phase-1
`esearch` call (keyed by the query term) or the phase-2 `esummary` call
(keyed by the ClinVar id taken from phase 1). -/
inductive ClinVarRequest where
  | search (term : String) : ClinVarRequest
  | summary (id : Json) : ClinVarRequest
deriving Repr

/-- The network as seen by one `ClinVarAnnotator.annotate` call: the outcome
of the phase-1 search request, and the outcome of a phase-2 summary request
for each possible id. -/
structure ClinVarOracle where
  searchOutcome : HttpOutcome
  summaryOutcome : Json → HttpOutcome

/-- One run of `ClinVarAnnotator.annotate`: the envelope it returns (or the
uncaught exception it raises, as `.error`), together with the list of
outbound requests it issued, in order.  Requests already issued are recorded
even when the call later raises. -/
structure ClinVarRun where
  outcome : Except String AnnotationResult
  trace : List ClinVarRequest

/-- The short-circuit envelope of `ClinVarAnnotator.annotate`. -/
def clinVarNotFound : AnnotationResult :=
  { source := "clinvar", data := .obj [], success := false,
    error := some "Variant not found in ClinVar" }

/-- Embedding of `ClinVarAnnotator.annotate` (annotator.py lines 142-166).  Phase 1 is the
search request; the guard is
`not search_data or not search_data.get("esearchresult", {}).get("idlist")`,
which short-circuits (one request, not-found envelope) when the search
payload is `None` or falsy, or when the `idlist` chain is falsy.  Otherwise
`clinvar_id = search_data["esearchresult"]["idlist"][0]` and phase 2 fetches
the summary;
`data = summary_data.get("result", {}).get(clinvar_id, {}) if summary_data else {}`
and the envelope has `success = bool(data)`. -/
def ClinVarAnnotator.annotate (oracle : ClinVarOracle) (variant_id : String) :
    ClinVarRun :=
  match BaseAnnotator.request oracle.searchOutcome with
  | none => ⟨.ok clinVarNotFound, [.search variant_id]⟩
  | some sd =>
    if !sd.truthy then ⟨.ok clinVarNotFound, [.search variant_id]⟩
    else
      match (match pyGetD sd "esearchresult" (.obj []) with
             | .error e => .error e
             | .ok es => pyGetD es "idlist" .null : Except String Json) with
      | .error e => ⟨.error e, [.search variant_id]⟩
      | .ok il =>
        if !il.truthy then ⟨.ok clinVarNotFound, [.search variant_id]⟩
        else
          match (match pySub sd "esearchresult" with
                 | .error e => .error e
                 | .ok es =>
                   match pySub es "idlist" with
                   | .error e => .error e
                   | .ok il2 => pyIndex0 il2 : Except String Json) with
          | .error e => ⟨.error e, [.search variant_id]⟩
          | .ok clinvar_id =>
            let trace := [ClinVarRequest.search variant_id,
                          ClinVarRequest.summary clinvar_id]
            let summary_data := BaseAnnotator.request
              (oracle.summaryOutcome clinvar_id)
            let dataE : Except String Json :=
              match summary_data with
              | none => .ok (.obj [])
              | some smd =>
                if !smd.truthy then .ok (.obj [])
                else
                  match pyGetD smd "result" (.obj []) with
                  | .error e => .error e
                  | .ok r => pyGetKeyD r clinvar_id (.obj [])
            match dataE with
            | .error e => ⟨.error e, trace⟩
            | .ok data =>
              ⟨.ok { source := "clinvar", data := data,
                     success := data.truthy,
                     error := if data.truthy then none
                              else some "No ClinVar data found" }, trace⟩

/-! ## The scorer -/

/-- The value returned by `VariantScorer.score_variant`: the dict
`{"total_score": ..., "details": ...}`, with `details` keeping its insertion
order. -/
structure ScoreResult where
  total_score : ℚ
  details : List (String × Json)
deriving Repr

/-- The CADD severity term of `VariantScorer.score_variant` (annotator.py
lines 207-212).  Guard: `"cadd" in data and isinstance(data["cadd"], dict)`;
then `cadd = _safe_float(data["cadd"].get("phred"))`, and the comparison
`cadd > 0` raises `TypeError` when `_safe_float` returned `None` (missing or
malformed `phred`).  Returns the term's score contribution and details
entries. -/
def caddStep (data : Json) : Except String (ℚ × List (String × Json)) :=
  match pyIn "cadd" data with
  | .error e => .error e
  | .ok false => .ok (0, [])
  | .ok true =>
    match pySub data "cadd" with
    | .error e => .error e
    | .ok (.obj kvs) =>
      match safeFloat ((objGet kvs "phred").getD .null) with
      | none => .error "TypeError: NoneType not comparable with int"
      | some cadd =>
        if cadd > 0 then
          .ok (min (cadd / 30) (4/10), [("cadd_phred", .num cadd)])
        else .ok (0, [])
    | .ok _ => .ok (0, [])

/-- Does this rcv entry make the clinical-significance test fire: a dict
whose `clinical_significance` (default `""`) stringifies and lowercases to
something containing `"pathogenic"`? -/
def isPathogenicRecord : Json → Bool
  | .obj kvs =>
    strContains (strLower (pyStr ((objGet kvs "clinical_significance").getD
      (.str "")))) "pathogenic"
  | _ => false

/-- The scan over `rcv` entries (annotator.py lines 218-224): skip non-dict
entries, and at the first entry whose significance text contains
`"pathogenic"` add `0.4`, set the flag, and `break`. -/
def clinvarScan : List Json → ℚ × List (String × Json)
  | [] => (0, [])
  | r :: rest =>
    if isPathogenicRecord r then (4/10, [("clinvar_pathogenic", .bool true)])
    else clinvarScan rest

/-- The clinical-significance term of `VariantScorer.score_variant`
(annotator.py lines 214-224).  Guard:
`"clinvar" in data and isinstance(data["clinvar"], dict)`; then
`rcv = data["clinvar"].get("rcv", [])` is scanned only when it is a list. -/
def clinvarStep (data : Json) : Except String (ℚ × List (String × Json)) :=
  match pyIn "clinvar" data with
  | .error e => .error e
  | .ok false => .ok (0, [])
  | .ok true =>
    match pySub data "clinvar" with
    | .error e => .error e
    | .ok (.obj kvs) =>
      match (objGet kvs "rcv").getD (.arr []) with
      | .arr rs => .ok (clinvarScan rs)
      | _ => .ok (0, [])
    | .ok _ => .ok (0, [])

/-- The rarity term of `VariantScorer.score_variant` (annotator.py lines
226-238): walk the db names in order; for the first db present as a dict
whose `af` field converts to a non-`None` float, record the frequency,
apply the tier (`af == 0` → 0.2, `af < 0.001` → 0.15, `af < 0.01` → 0.1,
else 0) and `break`. -/
def freqScan (data : Json) : List String → Except String (ℚ × List (String × Json))
  | [] => .ok (0, [])
  | db :: rest =>
    match pyIn db data with
    | .error e => .error e
    | .ok false => freqScan data rest
    | .ok true =>
      match pySub data db with
      | .error e => .error e
      | .ok (.obj kvs) =>
        match safeFloat ((objGet kvs "af").getD .null) with
        | some af =>
          .ok ((if af = 0 then 2/10
                else if af < 1/1000 then 15/100
                else if af < 1/100 then 1/10
                else 0),
               [(db ++ "_af", .num af)])
        | none => freqScan data rest
      | .ok _ => freqScan data rest

/-- Lookup in the result-set dict passed to the scorer. -/
def lookupResult (results : List (String × AnnotationResult)) (key : String) :
    Option AnnotationResult :=
  match results with
  | [] => none
  | (k, v) :: rest => if k = key then some v else lookupResult rest key

/-- Embedding of `VariantScorer.score_variant` (annotator.py lines 198-243): only the
`myvariant` entry contributes, and only when present and successful; the
three terms are summed, `details["myvariant_score"]` records the sum,
and the returned total is `min(total_score, 1.0)`. -/
def VariantScorer.score_variant (results : List (String × AnnotationResult)) :
    Except String ScoreResult :=
  match lookupResult results "myvariant" with
  | none => .ok ⟨0, []⟩
  | some r =>
    if !r.success then .ok ⟨0, []⟩
    else
      match caddStep r.data with
      | .error e => .error e
      | .ok (s1, d1) =>
        match clinvarStep r.data with
        | .error e => .error e
        | .ok (s2, d2) =>
          match freqScan r.data ["gnomad_exome", "gnomad_genome"] with
          | .error e => .error e
          | .ok (s3, d3) =>
            let score := s1 + s2 + s3
            .ok ⟨min score 1,
                 d1 ++ d2 ++ d3 ++ [("myvariant_score", .num score)]⟩

/-! ## The orchestrator and batch mode -/

/-- The network as seen by `GenomicAnnotator.annotate_variant`: per variant
id, the outcomes of the myvariant request, the Ensembl VEP request, and the
two ClinVar requests. -/
structure VariantOracle where
  myvariantOutcome : String → HttpOutcome
  ensemblOutcome : String → HttpOutcome
  clinvarSearchOutcome : String → HttpOutcome
  clinvarSummaryOutcome : String → Json → HttpOutcome

/-- The ClinVar run performed for one variant id under an oracle. -/
def clinvarRunAt (o : VariantOracle) (vid : String) : ClinVarRun :=
  ClinVarAnnotator.annotate
    ⟨o.clinvarSearchOutcome vid, o.clinvarSummaryOutcome vid⟩ vid

/-- Embedding of `GenomicAnnotator.annotate_variant` (annotator.py lines 271-277): one
envelope per registered variant annotator, in registry insertion order
(`myvariant`, `ensembl_vep`, `clinvar`); an exception raised by an adapter
propagates. -/
def GenomicAnnotator.annotate_variant (o : VariantOracle) (vid : String) :
    Except String (List (String × AnnotationResult)) :=
  match (clinvarRunAt o vid).outcome with
  | .error e => .error e
  | .ok cv =>
    .ok [("myvariant", MyVariantAnnotator.annotate (o.myvariantOutcome vid)),
         ("ensembl_vep", EnsemblVEPAnnotator.annotate (o.ensemblOutcome vid)),
         ("clinvar", cv)]

/-- One element of the list returned by
`GenomicAnnotator.annotate_variants_batch`: the dict
`{"variant_id", "successful_annotators", "total_score", "score_details",
"annotations"}`. -/
structure VariantRecord where
  variant_id : String
  successful_annotators : List String
  total_score : ℚ
  score_details : List (String × Json)
  successData : List (String × Json)
deriving Repr

/-- The loop body of `annotate_variants_batch` (annotator.py lines 295-313)
for one variant id: annotate, score, compile the record. -/
def GenomicAnnotator.perKeyRecord (o : VariantOracle) (vid : String) :
    Except String VariantRecord :=
  match GenomicAnnotator.annotate_variant o vid with
  | .error e => .error e
  | .ok results =>
    match VariantScorer.score_variant results with
    | .error e => .error e
    | .ok scores =>
      .ok { variant_id := vid
            successful_annotators :=
              results.filterMap (fun nr => if nr.2.success then some nr.1 else none)
            total_score := scores.total_score
            score_details := scores.details
            successData :=
              results.filterMap (fun nr =>
                if nr.2.success then some (nr.1, nr.2.data) else none) }

/-- Embedding of `GenomicAnnotator.annotate_variants_batch` (annotator.py lines 291-315):
the sequential loop over the given variant ids, appending one record per id;
an uncaught exception aborts the whole batch. -/
def GenomicAnnotator.annotate_variants_batch (o : VariantOracle) :
    List String → Except String (List VariantRecord)
  | [] => .ok []
  | vid :: rest =>
    match GenomicAnnotator.perKeyRecord o vid with
    | .error e => .error e
    | .ok r =>
      match GenomicAnnotator.annotate_variants_batch o rest with
      | .error e => .error e
      | .ok rs => .ok (r :: rs)

/-! ## Bounds of the scoring terms (claim C1 support) -/

theorem caddStep_bounds {d : Json} {s : ℚ} {dd : List (String × Json)}
    (h : caddStep d = .ok (s, dd)) : 0 ≤ s ∧ s ≤ 4/10 := by
  unfold caddStep at h
  split at h
  · exact absurd h (by simp)
  · obtain ⟨hs, -⟩ : (0 : ℚ) = s ∧ [] = dd := by simpa using h
    subst hs; constructor <;> norm_num
  · split at h
    · exact absurd h (by simp)
    · split at h
      · exact absurd h (by simp)
      · rename_i cadd _
        split at h
        · rename_i hpos
          obtain ⟨hs, -⟩ : min (cadd / 30) (4/10) = s ∧ _ = dd := by
            simpa using h
          subst hs
          refine ⟨le_min (by positivity) (by norm_num), min_le_right _ _⟩
        · obtain ⟨hs, -⟩ : (0 : ℚ) = s ∧ [] = dd := by simpa using h
          subst hs; constructor <;> norm_num
    · obtain ⟨hs, -⟩ : (0 : ℚ) = s ∧ [] = dd := by simpa using h
      subst hs; constructor <;> norm_num

theorem clinvarScan_bounds (rs : List Json) :
    0 ≤ (clinvarScan rs).1 ∧ (clinvarScan rs).1 ≤ 4/10 := by
  induction rs with
  | nil => constructor <;> norm_num [clinvarScan]
  | cons r rest ih =>
    cases hr : isPathogenicRecord r with
    | true => simp only [clinvarScan, hr, if_true]; constructor <;> norm_num
    | false => simpa [clinvarScan, hr] using ih

theorem clinvarStep_bounds {d : Json} {s : ℚ} {dd : List (String × Json)}
    (h : clinvarStep d = .ok (s, dd)) : 0 ≤ s ∧ s ≤ 4/10 := by
  unfold clinvarStep at h
  split at h
  · exact absurd h (by simp)
  · obtain ⟨hs, -⟩ : (0 : ℚ) = s ∧ [] = dd := by simpa using h
    subst hs; constructor <;> norm_num
  · split at h
    · exact absurd h (by simp)
    · split at h
      · rename_i rs _
        obtain h' : clinvarScan rs = (s, dd) := by simpa using h
        obtain ⟨hs, -⟩ := Prod.ext_iff.mp h'
        subst hs; exact clinvarScan_bounds rs
      · obtain ⟨hs, -⟩ : (0 : ℚ) = s ∧ [] = dd := by simpa using h
        subst hs; constructor <;> norm_num
    · obtain ⟨hs, -⟩ : (0 : ℚ) = s ∧ [] = dd := by simpa using h
      subst hs; constructor <;> norm_num

theorem freqScan_bounds {d : Json} {dbs : List String} {s : ℚ}
    {dd : List (String × Json)} (h : freqScan d dbs = .ok (s, dd)) :
    0 ≤ s ∧ s ≤ 2/10 := by
  induction dbs generalizing s dd with
  | nil =>
    obtain ⟨hs, -⟩ : (0 : ℚ) = s ∧ [] = dd := by
      simpa [freqScan] using h
    subst hs; constructor <;> norm_num
  | cons db rest ih =>
    unfold freqScan at h
    split at h
    · exact absurd h (by simp)
    · exact ih h
    · split at h
      · exact absurd h (by simp)
      · split at h
        · rename_i af _
          obtain ⟨hs, -⟩ := by simpa using h
          subst hs
          split
          · constructor <;> norm_num
          · split
            · constructor <;> norm_num
            · split
              · constructor <;> norm_num
              · constructor <;> norm_num
        · exact ih h
      · exact ih h

theorem score_variant_bounds {results : List (String × AnnotationResult)}
    {r : ScoreResult} (h : VariantScorer.score_variant results = .ok r) :
    0 ≤ r.total_score ∧ r.total_score ≤ 1 := by
  unfold VariantScorer.score_variant at h
  split at h
  · obtain rfl : ScoreResult.mk 0 [] = r := by simpa using h
    constructor <;> norm_num
  · split at h
    · obtain rfl : ScoreResult.mk 0 [] = r := by simpa using h
      constructor <;> norm_num
    · split at h
      · exact absurd h (by simp)
      · rename_i s1 d1 h1
        split at h
        · exact absurd h (by simp)
        · rename_i s2 d2 h2
          split at h
          · exact absurd h (by simp)
          · rename_i s3 d3 h3
            obtain rfl : ScoreResult.mk (min (s1 + s2 + s3) 1) _ = r := by
              simpa using h
            have b1 := caddStep_bounds h1
            have b2 := clinvarStep_bounds h2
            have b3 := freqScan_bounds h3
            constructor
            · exact le_min (by linarith [b1.1, b2.1, b3.1]) (by norm_num)
            · exact min_le_right _ _

/-- The full-hit scoring input of claim C1: a successful `myvariant` result
whose payload satisfies all three strong conditions (severity 40,
a pathogenic clinical record, allele frequency 0). -/
def fullHitData : Json :=
  .obj [("cadd", .obj [("phred", .num 40)]),
        ("clinvar", .obj [("rcv",
          .arr [.obj [("clinical_significance", .str "Pathogenic")]])]),
        ("gnomad_exome", .obj [("af", .num 0)])]

/-- Result set holding only the full-hit `myvariant` result. -/
def fullHitResults : List (String × AnnotationResult) :=
  [("myvariant", ⟨"myvariant", fullHitData, true, none⟩)]

theorem caddStep_fullHit :
    caddStep fullHitData = .ok (4/10, [("cadd_phred", .num 40)]) := by
  have hmin : min ((40 : ℚ)/30) (4/10) = 4/10 := min_eq_right (by norm_num)
  have hpos : (0 : ℚ) < 40 := by norm_num
  simp [caddStep, fullHitData, pyIn, pySub, objGet, safeFloat, pyFloat,
    hmin, hpos]

theorem clinvarStep_fullHit :
    clinvarStep fullHitData =
      .ok (4/10, [("clinvar_pathogenic", .bool true)]) := by
  have hrec : isPathogenicRecord
      (.obj [("clinical_significance", .str "Pathogenic")]) = true := rfl
  simp [clinvarStep, fullHitData, pyIn, pySub, objGet, clinvarScan, hrec]

theorem freqScan_fullHit :
    freqScan fullHitData ["gnomad_exome", "gnomad_genome"] =
      .ok (2/10, [("gnomad_exome_af", .num 0)]) := by
  simp [freqScan, fullHitData, pyIn, pySub, objGet, safeFloat, pyFloat]

theorem score_fullHit :
    VariantScorer.score_variant fullHitResults =
      .ok ⟨1, [("cadd_phred", .num 40), ("clinvar_pathogenic", .bool true),
               ("gnomad_exome_af", .num 0), ("myvariant_score", .num 1)]⟩ := by
  have hsum : (4 : ℚ)/10 + 4/10 + 2/10 = 1 := by norm_num
  simp [VariantScorer.score_variant, fullHitResults, lookupResult,
    caddStep_fullHit, clinvarStep_fullHit, freqScan_fullHit, hsum]

/-! ## Claims -/

/-- C1: For every result set passed to `score_variant` the returned total
score satisfies `0 ≤ total ≤ 1`; and on a payload matching all three strong
conditions (severity term 0.4, clinical-significance term 0.4, rarity term
0.2) the returned total is exactly 1. -/
theorem claim_C1_score_bounded :
    (∀ (results : List (String × AnnotationResult)) (r : ScoreResult),
        VariantScorer.score_variant results = .ok r →
        0 ≤ r.total_score ∧ r.total_score ≤ 1) ∧
    VariantScorer.score_variant fullHitResults =
      .ok ⟨1, [("cadd_phred", .num 40), ("clinvar_pathogenic", .bool true),
               ("gnomad_exome_af", .num 0), ("myvariant_score", .num 1)]⟩ :=
  ⟨fun _ _ h => score_variant_bounds h, score_fullHit⟩

/-- Witness for C1 at the empty result set, whose score is `ok ⟨0, []⟩`. -/
theorem claim_C1_score_bounded_witness :
    0 ≤ (ScoreResult.mk 0 []).total_score ∧
      (ScoreResult.mk 0 []).total_score ≤ 1 :=
  claim_C1_score_bounded.1 [] ⟨0, []⟩ rfl

/-- C2 counterexample: `_request` maps an HTTP 404 and an HTTP 500 (with a
body) to the very same value `None` — there is no `Error` outcome carrying
the status and body, so the three-outcome claim is false of the code. -/
theorem claim_C2_counterexample :
    BaseAnnotator.request
        (.response 404 (some (.obj [("detail", .str "not found")]))) = none ∧
    BaseAnnotator.request
        (.response 500 (some (.str "Internal Server Error"))) = none ∧
    BaseAnnotator.request
        (.response 404 (some (.obj [("detail", .str "not found")]))) =
      BaseAnnotator.request
        (.response 500 (some (.str "Internal Server Error"))) :=
  ⟨rfl, rfl, rfl⟩

/-- C2 amended: `_request` never raises to its caller, but returns only two
distinguishable outcomes, a payload or `None`: a transport failure, an HTTP
404 and any other 4xx/5xx status all collapse into the same `None`; a
delivered non-error response returns its parsed body. -/
theorem claim_C2_amended :
    (∀ m, BaseAnnotator.request (.transportError m) = none) ∧
    (∀ b, BaseAnnotator.request (.response 404 b) = none) ∧
    (∀ s b, 400 ≤ s → s < 600 →
        BaseAnnotator.request (.response s b) = none) ∧
    (∀ s b, ¬(400 ≤ s ∧ s < 600) →
        BaseAnnotator.request (.response s b) = b) := by
  refine ⟨fun m => rfl, fun b => by simp [BaseAnnotator.request],
          fun s b h1 h2 => ?_, fun s b h => ?_⟩
  · show (if s = 404 then none else
        if 400 ≤ s ∧ s < 600 then none else b) = none
    by_cases h4 : s = 404
    · rw [if_pos h4]
    · rw [if_neg h4, if_pos ⟨h1, h2⟩]
  · show (if s = 404 then none else
        if 400 ≤ s ∧ s < 600 then none else b) = b
    have h4 : s ≠ 404 := by rintro rfl; exact h (by norm_num)
    rw [if_neg h4, if_neg h]

/-- Witness for C2 amended at status 500 and at status 200. -/
theorem claim_C2_amended_witness :
    BaseAnnotator.request (.response 500 none) = none ∧
    BaseAnnotator.request (.response 200 (some (.obj [("a", .null)]))) =
      some (.obj [("a", .null)]) :=
  ⟨claim_C2_amended.2.2.1 500 none (by norm_num) (by norm_num),
   claim_C2_amended.2.2.2 200 (some (.obj [("a", .null)])) (by norm_num)⟩

/-- The C3 failing input: a successful `myvariant` result whose `cadd`
sub-object has no `phred` value. -/
def missingPhredResults : List (String × AnnotationResult) :=
  [("myvariant", ⟨"myvariant", .obj [("cadd", .obj [])], true, none⟩)]

/-- C3 (code bug): on a `cadd` sub-object with no numeric `phred` value
`_safe_float` returns `None`, and the guard `if cadd > 0:` then raises
`TypeError` — the scorer is not total on malformed severity fields, contrary
to the claim (and to the graceful-degradation purpose of `_safe_float`). -/
theorem claim_C3_scorer_raises :
    VariantScorer.score_variant missingPhredResults =
      .error "TypeError: NoneType not comparable with int" := rfl

/-- C5: whenever the phase-1 search payload is absent or its identifier list
is empty, `ClinVarAnnotator.annotate` returns the not-found envelope
(`success=false`, error "Variant not found in ClinVar") and issues exactly
one outbound request — phase 2 never happens; otherwise the phase-2 summary
request is keyed by the first identifier of the phase-1 list. -/
theorem claim_C5_two_phase :
    (∀ (oracle : ClinVarOracle) (vid : String),
        BaseAnnotator.request oracle.searchOutcome = none →
        ClinVarAnnotator.annotate oracle vid =
          ⟨.ok clinVarNotFound, [.search vid]⟩) ∧
    (∀ (oracle : ClinVarOracle) (vid : String)
        (kvs es : List (String × Json)),
        BaseAnnotator.request oracle.searchOutcome = some (.obj kvs) →
        objGet kvs "esearchresult" = some (.obj es) →
        objGet es "idlist" = some (.arr []) →
        ClinVarAnnotator.annotate oracle vid =
          ⟨.ok clinVarNotFound, [.search vid]⟩) ∧
    (∀ (oracle : ClinVarOracle) (vid : String)
        (kvs es : List (String × Json)) (x : Json) (rest : List Json),
        BaseAnnotator.request oracle.searchOutcome = some (.obj kvs) →
        objGet kvs "esearchresult" = some (.obj es) →
        objGet es "idlist" = some (.arr (x :: rest)) →
        (ClinVarAnnotator.annotate oracle vid).trace =
          [.search vid, .summary x]) := by
  refine ⟨fun oracle vid h => ?_, fun oracle vid kvs es h hes hidl => ?_,
          fun oracle vid kvs es x rest h hes hidl => ?_⟩
  · unfold ClinVarAnnotator.annotate
    rw [h]
  · unfold ClinVarAnnotator.annotate
    rw [h]
    cases kvs with
    | nil => simp [objGet] at hes
    | cons kv kvrest =>
      simp [Json.truthy, pyGetD, hes, hidl, Except.bind]
  · unfold ClinVarAnnotator.annotate
    rw [h]
    cases kvs with
    | nil => simp [objGet] at hes
    | cons kv kvrest =>
      simp only [Json.truthy, List.isEmpty_cons, Bool.not_false, if_false,
        Bool.not_true, Bool.false_eq_true, ite_false]
      simp only [pyGetD, hes, hidl, Except.bind, Option.getD]
      simp only [Json.truthy, List.isEmpty_cons, Bool.not_false,
        Bool.not_true, Bool.false_eq_true, ite_false, List.isEmpty_nil]
      simp only [pySub, hes, hidl, pyIndex0, Except.bind]
      split <;> rfl

/-- The C6 counterexample input: a successful `myvariant` result whose
first-priority frequency source carries `af = -1`. -/
def negAfResults : List (String × AnnotationResult) :=
  [("myvariant",
    ⟨"myvariant", .obj [("gnomad_exome", .obj [("af", .num (-1))])],
     true, none⟩)]

/-- C6 counterexample: for frequency `-1` — which falls under the claim's
"0 otherwise" tier (it is neither 0, nor in (0, 0.001), nor in
[0.001, 0.01)) — the code adds 0.15, not 0: the `elif af < 0.001` branch
does not require `0 < af`. -/
theorem claim_C6_counterexample :
    VariantScorer.score_variant negAfResults =
      .ok ⟨15/100, [("gnomad_exome_af", .num (-1)),
                    ("myvariant_score", .num (15/100))]⟩ ∧
    (15 : ℚ)/100 ≠ 0 := by
  constructor
  · have h1 : ((-1 : ℚ) = 0) = False := by norm_num
    have h2 : ((-1 : ℚ) < 1/1000) = True := by norm_num
    have h3 : (15 : ℚ)/100 ⊓ 1 = 15/100 := min_eq_left (by norm_num)
    simp [VariantScorer.score_variant, negAfResults, lookupResult, caddStep,
      clinvarStep, freqScan, pyIn, pySub, objGet, safeFloat, pyFloat,
      h1, h2, h3]
    constructor
    · rw [if_pos (show (-1 : ℚ) < 1000⁻¹ by norm_num), h3]
    · intro hcon
      exact absurd hcon (by norm_num)
  · norm_num

/-- The tier bonus of the rarity term as the code computes it (amended claim
C6): `q = 0` → 0.2, any other `q < 0.001` (negative values included) → 0.15,
`0.001 ≤ q < 0.01` → 0.1, `q ≥ 0.01` → 0. -/
def freqTier (q : ℚ) : ℚ :=
  if q = 0 then 2/10
  else if q < 1/1000 then 15/100
  else if q < 1/100 then 1/10
  else 0

/-- The allele frequency the scorer extracts for a frequency source: present
only when the source is a dict member whose `af` field converts via
`_safe_float` to a non-`None` value. -/
def afValue (kvs : List (String × Json)) (db : String) : Option ℚ :=
  match objGet kvs db with
  | some (.obj sub) => safeFloat ((objGet sub "af").getD .null)
  | _ => none

theorem any_key_of_objGet {kvs : List (String × Json)} {k : String} {v : Json}
    (h : objGet kvs k = some v) :
    (kvs.any (fun kv => kv.1 == k)) = true := by
  induction kvs with
  | nil => simp [objGet] at h
  | cons kv rest ih =>
    by_cases hk : kv.1 = k
    · simp [hk]
    · rw [objGet] at h
      simp only [List.any_cons]
      rcases kv with ⟨k1, v1⟩
      simp only at hk
      rw [if_neg hk] at h
      simp [ih h]

theorem none_key_of_objGet {kvs : List (String × Json)} {k : String}
    (h : objGet kvs k = none) :
    (kvs.any (fun kv => kv.1 == k)) = false := by
  induction kvs with
  | nil => rfl
  | cons kv rest ih =>
    rcases kv with ⟨k1, v1⟩
    rw [objGet] at h
    by_cases hk : k1 = k
    · rw [if_pos hk] at h; cases h
    · rw [if_neg hk] at h
      simp [hk, ih h]

/-- C6 amended: the rarity term consults `gnomad_exome` before
`gnomad_genome`; at the first source with a non-null converted allele
frequency `q` it adds `freqTier q` — 0.2 for `q = 0`, 0.15 for any other
`q < 0.001` (negative values included, the one change the counterexample
forces), 0.1 for `0.001 ≤ q < 0.01`, else 0 — records `(db ++ "_af", q)` in
details, and never consults the remaining sources (the result is a function
of that source's value alone); a source with no extractable value is
skipped. -/
theorem claim_C6_amended :
    (∀ (kvs : List (String × Json)) (db : String) (rest : List String)
        (q : ℚ), afValue kvs db = some q →
        freqScan (.obj kvs) (db :: rest) =
          .ok (freqTier q, [(db ++ "_af", .num q)])) ∧
    (∀ (kvs : List (String × Json)) (db : String) (dbs : List String),
        afValue kvs db = none →
        freqScan (.obj kvs) (db :: dbs) = freqScan (.obj kvs) dbs) ∧
    (∀ q : ℚ, q ≠ 0 → q < 1/1000 → freqTier q = 15/100) := by
  refine ⟨fun kvs db rest q h => ?_, fun kvs db dbs h => ?_,
          fun q h0 hlt => ?_⟩
  · unfold afValue at h
    cases hdb : objGet kvs db with
    | none => rw [hdb] at h; cases h
    | some v =>
      rw [hdb] at h
      cases v <;> simp only at h <;> try (cases h)
      case obj sub =>
        conv_lhs => rw [freqScan]
        simp [pyIn, any_key_of_objGet hdb, pySub, hdb, h, freqTier]
  · unfold afValue at h
    cases hdb : objGet kvs db with
    | none =>
      conv_lhs => rw [freqScan]
      simp [pyIn, none_key_of_objGet hdb]
    | some v =>
      rw [hdb] at h
      conv_lhs => rw [freqScan]
      simp only [pyIn, any_key_of_objGet hdb, pySub, hdb, if_true]
      cases v <;> simp only at h <;> simp [h]
  · unfold freqTier
    rw [if_neg h0, if_pos hlt]

/-- Witness for C6 amended: with `af = 0` on the first-priority source the
term adds exactly 0.2 and records the value, whatever the second source
holds. -/
theorem claim_C6_amended_witness :
    freqScan (.obj [("gnomad_exome", .obj [("af", .num 0)]),
                    ("gnomad_genome", .obj [("af", .num (1/2))])])
        ["gnomad_exome", "gnomad_genome"] =
      .ok (freqTier 0, [("gnomad_exome_af", .num 0)]) :=
  claim_C6_amended.1 _ "gnomad_exome" ["gnomad_genome"] 0 rfl

/-- C7: the clinical-significance term scans the `rcv` list; with no
matching record it contributes 0 and no flag; at the first record whose
significance text contains "pathogenic" (case-insensitively) it adds exactly
0.4 and the boolean flag, and stops — whatever records follow (so the bonus
is never cumulative); and for a `clinvar` dict with an `rcv` list the step
is exactly that scan. -/
theorem claim_C7_clinvar_first_match :
    (∀ rs : List Json, (∀ r ∈ rs, isPathogenicRecord r = false) →
        clinvarScan rs = (0, [])) ∧
    (∀ (pre : List Json) (r : Json) (rest : List Json),
        (∀ x ∈ pre, isPathogenicRecord x = false) →
        isPathogenicRecord r = true →
        clinvarScan (pre ++ r :: rest) =
          (4/10, [("clinvar_pathogenic", .bool true)])) ∧
    (∀ (kvs ckvs : List (String × Json)) (rs : List Json),
        objGet kvs "clinvar" = some (.obj ckvs) →
        objGet ckvs "rcv" = some (.arr rs) →
        clinvarStep (.obj kvs) = .ok (clinvarScan rs)) := by
  refine ⟨fun rs h => ?_, fun pre r rest hpre hr => ?_,
          fun kvs ckvs rs h hrcv => ?_⟩
  · induction rs with
    | nil => rfl
    | cons x xs ih =>
      rw [clinvarScan, if_neg]
      · exact ih fun y hy => h y (List.mem_cons_of_mem x hy)
      · simp [h x (List.mem_cons_self x xs)]
  · induction pre with
    | nil => simp [clinvarScan, hr]
    | cons x xs ih =>
      rw [List.cons_append, clinvarScan, if_neg]
      · exact ih fun y hy => hpre y (List.mem_cons_of_mem x hy)
      · simp [hpre x (List.mem_cons_self x xs)]
  · unfold clinvarStep
    simp [pyIn, any_key_of_objGet h, pySub, h, hrcv]

/-- Witness for C7: a scan whose first record matches and whose second
record would match too adds 0.4 exactly once. -/
theorem claim_C7_clinvar_first_match_witness :
    clinvarScan [.obj [("clinical_significance", .str "Likely Pathogenic")],
                 .obj [("clinical_significance", .str "Pathogenic")]] =
      (4/10, [("clinvar_pathogenic", .bool true)]) :=
  claim_C7_clinvar_first_match.2.1 []
    (.obj [("clinical_significance", .str "Likely Pathogenic")])
    [.obj [("clinical_significance", .str "Pathogenic")]]
    (by simp) rfl

/-- A fetch the code treats as failed (the amended claim C8's failure
class): the transport layer raised (timeout, connection failure), or the
response status is one `raise_for_status` raises on — any 4xx/5xx, the 404
included — or the response body does not parse as JSON.  A delivered
non-2xx status outside 400–599 with a JSON body (an HTTP 300, a
`Location`-less 3xx, a status ≥ 600) is not in this class: `_request`
passes its payload through. -/
def fetchFailure (o : HttpOutcome) : Prop :=
  (∃ m, o = .transportError m) ∨
  (∃ s b, o = .response s b ∧ ((400 ≤ s ∧ s < 600) ∨ b = none))

theorem request_eq_none_of_failure {o : HttpOutcome}
    (h : fetchFailure o) : BaseAnnotator.request o = none := by
  rcases h with ⟨m, rfl⟩ | ⟨s, b, rfl, h45 | rfl⟩
  · rfl
  · show (if s = 404 then none else
        if 400 ≤ s ∧ s < 600 then none else b) = none
    by_cases h4 : s = 404
    · rw [if_pos h4]
    · rw [if_neg h4, if_pos h45]
  · show (if s = 404 then none else
        if 400 ≤ s ∧ s < 600 then none else none) = none
    by_cases h4 : s = 404
    · rw [if_pos h4]
    · rw [if_neg h4]
      by_cases h45 : 400 ≤ s ∧ s < 600
      · rw [if_pos h45]
      · rw [if_neg h45]

/-- C8 counterexample: an HTTP 300 response — a non-2xx status, which
`requests` delivers as-is (only `Location`-bearing 301/302/303/307/308 are
followed) and `raise_for_status` does not raise on — carrying a JSON record
body makes `MyVariantAnnotator.annotate` return `success=true` with
non-empty data, not the failure envelope the claim asserts for every
non-2xx status. -/
theorem claim_C8_counterexample :
    (MyVariantAnnotator.annotate
        (.response 300 (some (.obj [("gene", .str "BRCA1")])))).success
      = true ∧
    (MyVariantAnnotator.annotate
        (.response 300 (some (.obj [("gene", .str "BRCA1")])))).data
      = .obj [("gene", .str "BRCA1")] ∧
    ¬(200 ≤ 300 ∧ 300 < 300) :=
  ⟨rfl, rfl, by omega⟩

/-- C8 amended: under any fetch the code treats as failed — timeout,
connection failure, any 4xx/5xx status (404 included), or an unparseable
body — every adapter returns an envelope with `success=false` and an empty
dict as `data`: the single-call variant adapters and the conservation
adapters directly; the ClinVar adapter returns the not-found envelope when
phase 1 fails, and an empty-data failure envelope whenever phase 2's
request fails and the call returns at all.  (A delivered non-2xx status
outside 400–599 with a JSON body is not a failure: see the
counterexample.) -/
theorem claim_C8_failure_envelope :
    (∀ o, fetchFailure o →
        (MyVariantAnnotator.annotate o).success = false ∧
        (MyVariantAnnotator.annotate o).data = .obj [] ∧
        (EnsemblVEPAnnotator.annotate o).success = false ∧
        (EnsemblVEPAnnotator.annotate o).data = .obj []) ∧
    (∀ track o, fetchFailure o →
        (ConservationAnnotator.annotate track o).success = false ∧
        (ConservationAnnotator.annotate track o).data = .obj []) ∧
    (∀ (oracle : ClinVarOracle) (vid : String),
        fetchFailure oracle.searchOutcome →
        (ClinVarAnnotator.annotate oracle vid).outcome =
          .ok clinVarNotFound) ∧
    (∀ (oracle : ClinVarOracle) (vid : String) (r : AnnotationResult),
        (∀ id, fetchFailure (oracle.summaryOutcome id)) →
        (ClinVarAnnotator.annotate oracle vid).outcome = .ok r →
        r.success = false ∧ r.data = .obj []) := by
  refine ⟨fun o h => ?_, fun track o h => ?_, fun oracle vid h => ?_,
          fun oracle vid r hfail hout => ?_⟩
  · have hreq := request_eq_none_of_failure h
    unfold MyVariantAnnotator.annotate EnsemblVEPAnnotator.annotate
    rw [hreq]
    exact ⟨rfl, rfl, rfl, rfl⟩
  · have hreq := request_eq_none_of_failure h
    unfold ConservationAnnotator.annotate
    rw [hreq]
    exact ⟨rfl, rfl⟩
  · have hreq := request_eq_none_of_failure h
    unfold ClinVarAnnotator.annotate
    rw [hreq]
  · cases hreq : BaseAnnotator.request oracle.searchOutcome with
    | none =>
      simp only [ClinVarAnnotator.annotate, hreq] at hout
      obtain rfl : clinVarNotFound = r := by simpa using hout
      exact ⟨rfl, rfl⟩
    | some sd =>
      simp only [ClinVarAnnotator.annotate, hreq] at hout
      by_cases hsd : sd.truthy
      · rw [if_neg (by simp [hsd])] at hout
        split at hout
        · exact absurd hout (by simp)
        · split at hout
          · obtain rfl : clinVarNotFound = r := by simpa using hout
            exact ⟨rfl, rfl⟩
          · split at hout
            · exact absurd hout (by simp)
            · rename_i cid _
              rw [request_eq_none_of_failure (hfail cid)] at hout
              obtain rfl :
                  ({ source := "clinvar", data := .obj [], success := false,
                     error := some "No ClinVar data found" } :
                    AnnotationResult) = r := by
                simpa [Json.truthy] using hout
              exact ⟨rfl, rfl⟩
      · rw [if_pos (by simp [hsd])] at hout
        obtain rfl : clinVarNotFound = r := by simpa using hout
        exact ⟨rfl, rfl⟩

/-- All three variant adapters fail for this key under this oracle (the
ClinVar adapter returning, with an unsuccessful envelope). -/
def allAdaptersFailAt (o : VariantOracle) (vid : String) : Prop :=
  (MyVariantAnnotator.annotate (o.myvariantOutcome vid)).success = false ∧
  (EnsemblVEPAnnotator.annotate (o.ensemblOutcome vid)).success = false ∧
  ∃ cv, (clinvarRunAt o vid).outcome = .ok cv ∧ cv.success = false

/-- The two oracles serve identical responses for this key. -/
def oracleAgreeAt (o o2 : VariantOracle) (vid : String) : Prop :=
  o.myvariantOutcome vid = o2.myvariantOutcome vid ∧
  o.ensemblOutcome vid = o2.ensemblOutcome vid ∧
  o.clinvarSearchOutcome vid = o2.clinvarSearchOutcome vid ∧
  o.clinvarSummaryOutcome vid = o2.clinvarSummaryOutcome vid

/-- C9: a returned batch has exactly one record per input key, in input
order, each record being exactly the per-key computation for its own key; a
key all of whose adapters fail still yields the record with an empty
successful-sources list and score 0; and each key's record depends only on
the responses served for that key (so one key's failures cannot alter
another key's record). -/
theorem claim_C9_batch_per_key :
    (∀ (o : VariantOracle) (ids : List String) (out : List VariantRecord),
        GenomicAnnotator.annotate_variants_batch o ids = .ok out →
        out.length = ids.length ∧
        ∀ (i : ℕ) (hi : i < ids.length) (ho : i < out.length),
          GenomicAnnotator.perKeyRecord o (ids.get ⟨i, hi⟩) =
            .ok (out.get ⟨i, ho⟩)) ∧
    (∀ (o : VariantOracle) (vid : String), allAdaptersFailAt o vid →
        GenomicAnnotator.perKeyRecord o vid = .ok ⟨vid, [], 0, [], []⟩) ∧
    (∀ (o o2 : VariantOracle) (vid : String), oracleAgreeAt o o2 vid →
        GenomicAnnotator.perKeyRecord o vid =
          GenomicAnnotator.perKeyRecord o2 vid) := by
  refine ⟨fun o ids => ?_, fun o vid h => ?_, fun o o2 vid h => ?_⟩
  · induction ids with
    | nil =>
      intro out hout
      obtain rfl : ([] : List VariantRecord) = out := by
        simpa [GenomicAnnotator.annotate_variants_batch] using hout
      exact ⟨rfl, fun i hi => absurd hi (by simp)⟩
    | cons vid rest ih =>
      intro out hout
      unfold GenomicAnnotator.annotate_variants_batch at hout
      split at hout
      · exact absurd hout (by simp)
      · rename_i r hr
        split at hout
        · exact absurd hout (by simp)
        · rename_i rs hrs
          obtain rfl : r :: rs = out := by simpa using hout
          obtain ⟨hlen, hidx⟩ := ih rs hrs
          refine ⟨by simp [hlen], fun i hi ho => ?_⟩
          cases i with
          | zero => simpa using hr
          | succ j => exact hidx j (by simpa using hi) (by simpa using ho)
  · obtain ⟨h1, h2, cv, hcv, hcvs⟩ := h
    unfold GenomicAnnotator.perKeyRecord GenomicAnnotator.annotate_variant
    rw [hcv]
    simp [VariantScorer.score_variant, lookupResult, h1, h2, hcvs]
  · obtain ⟨e1, e2, e3, e4⟩ := h
    unfold GenomicAnnotator.perKeyRecord GenomicAnnotator.annotate_variant
      clinvarRunAt
    rw [e1, e2, e3, e4]

/-- The all-failures oracle: every request of every adapter gets a 404. -/
def deadOracle : VariantOracle :=
  ⟨fun _ => .response 404 none, fun _ => .response 404 none,
   fun _ => .response 404 none, fun _ _ => .response 404 none⟩

/-- Witness for C9: under the all-404 oracle a two-key batch returns two
records, and the all-failing key's record has no successful sources and
score 0. -/
theorem claim_C9_batch_per_key_witness :
    (GenomicAnnotator.annotate_variants_batch deadOracle ["rs1", "rs2"] =
      .ok [⟨"rs1", [], 0, [], []⟩, ⟨"rs2", [], 0, [], []⟩]) ∧
    GenomicAnnotator.perKeyRecord deadOracle "rs2" =
      .ok ⟨"rs2", [], 0, [], []⟩ := by
  have h2 : GenomicAnnotator.perKeyRecord deadOracle "rs2" =
      .ok ⟨"rs2", [], 0, [], []⟩ :=
    claim_C9_batch_per_key.2.1 deadOracle "rs2"
      ⟨rfl, rfl, clinVarNotFound, rfl, rfl⟩
  have h1 : GenomicAnnotator.perKeyRecord deadOracle "rs1" =
      .ok ⟨"rs1", [], 0, [], []⟩ :=
    claim_C9_batch_per_key.2.1 deadOracle "rs1"
      ⟨rfl, rfl, clinVarNotFound, rfl, rfl⟩
  refine ⟨?_, h2⟩
  unfold GenomicAnnotator.annotate_variants_batch
  rw [h1]
  unfold GenomicAnnotator.annotate_variants_batch
  rw [h2]
  rfl

/-- The success/error invariant of claim C10. -/
def envInvariant (r : AnnotationResult) : Prop :=
  (r.success = true ↔ r.error = none) ∧
  (r.success = false → ∃ m, r.error = some m ∧ m ≠ "")

theorem envInvariant_mk (src : String) (d : Json) (b : Bool) (msg : String)
    (hm : msg ≠ "") :
    envInvariant ⟨src, d, b, if b then none else some msg⟩ := by
  cases b <;> simp [envInvariant, hm]

/-- C10: every adapter's returned envelope satisfies `success=true` iff
`error=None`, and an unsuccessful envelope always carries a non-empty
diagnostic message (for ClinVar: every envelope the call returns). -/
theorem claim_C10_success_error_invariant :
    (∀ o, envInvariant (MyVariantAnnotator.annotate o)) ∧
    (∀ o, envInvariant (EnsemblVEPAnnotator.annotate o)) ∧
    (∀ track o, envInvariant (ConservationAnnotator.annotate track o)) ∧
    (∀ (oracle : ClinVarOracle) (vid : String) (r : AnnotationResult),
        (ClinVarAnnotator.annotate oracle vid).outcome = .ok r →
        envInvariant r) := by
  refine ⟨fun o => ?_, fun o => ?_, fun track o => ?_,
          fun oracle vid r hout => ?_⟩
  · exact envInvariant_mk "myvariant" _ _ "No data found" (by decide)
  · exact envInvariant_mk "ensembl_vep" _ _ "No data found" (by decide)
  · refine envInvariant_mk ("ucsc_" ++ track) _ _
      ("No " ++ track ++ " data found") (fun hc => ?_)
    have := congrArg String.length hc
    simp [String.length_append] at this
    exact absurd this.1.1 (by decide)
  · have hnf : envInvariant clinVarNotFound := by
      simp [envInvariant, clinVarNotFound]
    cases hreq : BaseAnnotator.request oracle.searchOutcome with
    | none =>
      simp only [ClinVarAnnotator.annotate, hreq] at hout
      obtain rfl : clinVarNotFound = r := by simpa using hout
      exact hnf
    | some sd =>
      simp only [ClinVarAnnotator.annotate, hreq] at hout
      by_cases hsd : sd.truthy
      · rw [if_neg (by simp [hsd])] at hout
        split at hout
        · exact absurd hout (by simp)
        · split at hout
          · obtain rfl : clinVarNotFound = r := by simpa using hout
            exact hnf
          · split at hout
            · exact absurd hout (by simp)
            · split at hout
              · exact absurd hout (by simp)
              · rename_i data _
                obtain rfl :
                    ({ source := "clinvar", data := data,
                       success := data.truthy,
                       error := if data.truthy then none
                                else some "No ClinVar data found" } :
                      AnnotationResult) = r := by
                  simpa using hout
                exact envInvariant_mk "clinvar" data data.truthy
                  "No ClinVar data found" (by decide)
      · rw [if_pos (by simp [hsd])] at hout
        obtain rfl : clinVarNotFound = r := by simpa using hout
        exact hnf

/-- A concrete phase-1 payload with a non-empty identifier list. -/
def foundSearchOracle : ClinVarOracle :=
  ⟨.response 200 (some (.obj [("esearchresult",
      .obj [("idlist", .arr [.str "12345"])])])),
   fun _ => .response 200 (some (.obj []))⟩

/-- Witness for C5: a 404 search short-circuits with one request, and a
search payload with idlist `["12345"]` issues phase 2 keyed by `"12345"`. -/
theorem claim_C5_two_phase_witness :
    ClinVarAnnotator.annotate ⟨.response 404 none, fun _ => .response 404 none⟩
        "rs1" = ⟨.ok clinVarNotFound, [.search "rs1"]⟩ ∧
    (ClinVarAnnotator.annotate foundSearchOracle "rs1").trace =
      [.search "rs1", .summary (.str "12345")] :=
  ⟨claim_C5_two_phase.1 ⟨.response 404 none, fun _ => .response 404 none⟩
      "rs1" rfl,
   claim_C5_two_phase.2.2 foundSearchOracle "rs1" _ _ (.str "12345") []
      rfl rfl rfl⟩

/-- A ClinVar oracle all of whose requests meet a 500. -/
def failing500Oracle : ClinVarOracle :=
  ⟨.response 500 none, fun _ => .response 500 none⟩

/-- Witness for C8: a connection failure for myvariant, a 500 for the
conservation adapter, and the all-500 oracle for both ClinVar conjuncts. -/
theorem claim_C8_failure_envelope_witness :
    (MyVariantAnnotator.annotate (.transportError "connection reset")).success
      = false ∧
    (ConservationAnnotator.annotate "phyloP100way"
        (.response 500 (some (.str "oops")))).data = .obj [] ∧
    (ClinVarAnnotator.annotate failing500Oracle "rs1").outcome =
      .ok clinVarNotFound ∧
    (clinVarNotFound.success = false ∧ clinVarNotFound.data = .obj []) :=
  ⟨(claim_C8_failure_envelope.1 _ (Or.inl ⟨_, rfl⟩)).1,
   (claim_C8_failure_envelope.2.1 "phyloP100way" _
      (Or.inr ⟨500, _, rfl, Or.inl (by omega)⟩)).2,
   claim_C8_failure_envelope.2.2.1 failing500Oracle "rs1"
      (Or.inr ⟨500, none, rfl, Or.inl (by omega)⟩),
   claim_C8_failure_envelope.2.2.2 failing500Oracle "rs1" clinVarNotFound
      (fun _ => Or.inr ⟨500, none, rfl, Or.inl (by omega)⟩)
      (claim_C8_failure_envelope.2.2.1 failing500Oracle "rs1"
        (Or.inr ⟨500, none, rfl, Or.inl (by omega)⟩))⟩

/-- Witness for C10: a found payload, a 404, and the ClinVar conjunct at the
all-500 oracle. -/
theorem claim_C10_success_error_invariant_witness :
    envInvariant (MyVariantAnnotator.annotate
      (.response 200 (some (.obj [("cadd", .null)])))) ∧
    envInvariant (EnsemblVEPAnnotator.annotate (.response 404 none)) ∧
    envInvariant clinVarNotFound :=
  ⟨claim_C10_success_error_invariant.1 _,
   claim_C10_success_error_invariant.2.1 _,
   claim_C10_success_error_invariant.2.2.2 failing500Oracle "rs1"
     clinVarNotFound rfl⟩
